import Mathlib

/-!
Verification of the XIPE emissions-calculation engine
(`backend/app/core/calculations.py` and `backend/app/core/data_loader.py`).

The Python code works on pandas dataframes of floats; here each variable
table is embedded as Lean lists/functions over `ℚ`, translated line by line
from the source.  Source line numbers cited in the doc comments refer to
`backend/app/core/calculations.py` unless another file is named.
-/

namespace XIPE

/-- A row of a variables table, `{variable, userInput, defaultValue}`
(`VariableRow` in `backend/app/api/models/schemas.py`; `userInput` and
`defaultValue` carry no sign constraint there). -/
structure VariableRow where
  varName : String
  userInput : ℚ
  defaultValue : ℚ
  deriving DecidableEq

/-- Per-row resolution `np.where(userInput == 0, defaultValue, userInput)`
used at lines 353-355 (`_prepare_trad_variables`) and 415-417
(`_prepare_general_variables`). -/
def resolve_user_input (r : VariableRow) : ℚ :=
  if r.userInput = 0 then r.defaultValue else r.userInput

/-- Effective-value column produced for one traditional-mode category by
`_prepare_trad_variables` (lines 350-357): the per-row `np.where` fallback,
then `defaultValue` is dropped and `userInput` is renamed to the mode name. -/
def prepare_trad_effective (rows : List VariableRow) : List ℚ :=
  rows.map resolve_user_input

/-- Effective-value column produced for one shared-service category by
`_prepare_nms_variables` (lines 247-252): if the **sum** of the category's
`userInput` column is zero, every row takes its `defaultValue`; otherwise
every row keeps its raw `userInput` (`if df_new["userInput"].sum() == 0:
df_new["userInput"] = df_new["defaultValue"]`). -/
def prepare_nms_effective (rows : List VariableRow) : List ℚ :=
  if (rows.map (fun r => r.userInput)).sum = 0 then
    rows.map (fun r => r.defaultValue)
  else
    rows.map (fun r => r.userInput)

/-- The country-default writes of `_prepare_general_variables`
(lines 420-424): `defaultValue` at positions 0,2,3,4,5 is overwritten with
the country electricity CO2 intensity, the average fleet age and the
petrol/diesel/EV shares; position 1 (WTT fraction) is untouched. -/
def update_general_defaults (rows : List VariableRow)
    (elec age petrol diesel ev : ℚ) : List VariableRow :=
  rows.mapIdx fun i r =>
    if i = 0 then { r with defaultValue := elec }
    else if i = 2 then { r with defaultValue := age }
    else if i = 3 then { r with defaultValue := petrol }
    else if i = 4 then { r with defaultValue := diesel }
    else if i = 5 then { r with defaultValue := ev }
    else r

/-- `_prepare_general_variables` (lines 402-432), in source order:
line 415 resolves `userInput` vs `defaultValue` per row (`np.where`);
lines 420-424 then overwrite `defaultValue` from country data;
line 426 drops the `defaultValue` column and line 427 renames `userInput`
to `general`.  The output is that final `general` column. -/
def prepare_general_variables (rows : List VariableRow)
    (elec age petrol diesel ev : ℚ) : List ℚ :=
  let resolved := rows.map fun r => { r with userInput := resolve_user_input r }
  let updated := update_general_defaults resolved elec age petrol diesel ev
  updated.map fun r => r.userInput

/-- Lines 473-477 of `_update_defaults_from_dashboard`: rows 0, 1, 2 of the
`private_car` column of `df_var_trad` are overwritten with the
country-derived CO2/NOx/PM values, unconditionally.  At this point the
column holds the already-resolved effective values (the `defaultValue`
column was dropped inside `_prepare_trad_variables`). -/
def update_defaults_from_dashboard (private_car_col : List ℚ)
    (co2 nox pm : ℚ) : List ℚ :=
  ((private_car_col.set 0 co2).set 1 nox).set 2 pm

/-- The `private_car` column as consumed by `_perform_calculations`:
first resolved by `_prepare_trad_variables`, then rows 0-2 overwritten by
`_update_defaults_from_dashboard`. -/
def trad_private_car_downstream (rows : List VariableRow)
    (co2 nox pm : ℚ) : List ℚ :=
  update_defaults_from_dashboard (prepare_trad_effective rows) co2 nox pm

/-- The five traditional mode names, in source order (line 12). -/
def TRAD_TYPES : List String := ["private_car", "pt_road", "pt_rail", "cycling", "walking"]

/-- Modes of `TRAD_TYPES` present in the input table, in `TRAD_TYPES` order:
`_prepare_trad_variables` lines 344-346 iterate `TRAD_TYPES` and keep the
modes that occur as keys of `trad_vars`.  `df_var_trad` then has one column
per element, after the leading `variable` column, in this order. -/
def presentModes (tradKeys : List String) : List String :=
  TRAD_TYPES.filter (fun m => tradKeys.contains m)

/-- The shape checks of the traditional-modes pipeline, and the column used
as the rail-efficiency source.  `_prepare_trad_variables` raises a
`ValueError` iff `df_var_trad` keeps at most one column (lines 376-384,
i.e. no mode column survived); its five-row check (lines 387-392) can never
fire because every merge is a left join against the five-row template.
`_perform_calculations` raises iff `df_var_trad` has at most 3 rows or at
most 3 columns (lines 564-565; the row count is always 5).  When neither
check fires the rail factor is read from `df_var_trad.iloc[3, 3]`
(line 566): row 3 of the mode column at position 3, which is the third
present mode — whatever mode that happens to be.  No later statement of
`_perform_calculations` can raise, so the returned mode name identifies the
column silently used as `pt_rail`'s efficiency. -/
def trad_pipeline_check (tradKeys : List String) : Except String String :=
  let modes := presentModes tradKeys
  if modes.length + 1 ≤ 1 then
    Except.error "df_var_trad has only 1 column(s) after merging"
  else if 5 ≤ 3 ∨ modes.length + 1 ≤ 3 then
    Except.error "df_var_trad has incorrect shape"
  else
    Except.ok (modes.getD 2 "")

/-- Python's built-in `round` (banker's rounding, half to even), used at
line 47: `car_year = round(2024 - car_age, 0)`. -/
def pyRound (q : ℚ) : ℤ :=
  let f := ⌊q⌋
  if q - f < 1 / 2 then f
  else if q - f > 1 / 2 then f + 1
  else if Even f then f else f + 1

/-- The hard-coded current year of line 47 (`round(2024 - car_age, 0)`). -/
def current_year : ℚ := 2024

/-- Line 47 of `calculate_emissions`: the implied registration year of the
average car, `round(2024 - car_age, 0)`. -/
def car_year (averageAge : ℚ) : ℤ := pyRound (current_year - averageAge)

/-- Line 452 of `_update_defaults_from_dashboard`:
`year_index = int(max_year - car_year)`. -/
def year_index (maxYear carYear : ℤ) : ℤ := maxYear - carYear

/-- One row of the `air_emission_limits` reference table
(`data_loader.air_emission`), as read at lines 463-466. -/
structure AirEmissionRow where
  petrol_nox : ℚ
  diesel_nox : ℚ
  petrol_pm : ℚ
  diesel_pm : ℚ

/-- Lines 454-460: the country-derived private-car TTW CO2 default.
`carCo2 i` stands for `data_loader.car_co2.loc[i, country]`.  The base
value is looked up at `year_index` and multiplied by 1.4 (NEDC correction)
when `car_year <= 2020`, else by 1.14 (WLTP correction). -/
def default_co2_car (carCo2 : ℤ → ℚ) (maxYear carYear : ℤ) : ℚ :=
  let base := carCo2 (year_index maxYear carYear)
  if carYear ≤ 2020 then base * 1.4 else base * 1.14

/-- Lines 463-469: the country-derived private-car NOx default, the
petrol/diesel-share-weighted emission limits at `year_index`, converted
g/km → mg/km by the factor 1000.  The EV share does not enter. -/
def default_nox_car (air : ℤ → AirEmissionRow) (yi : ℤ)
    (petrolShare dieselShare : ℚ) : ℚ :=
  (petrolShare / 100 * (air yi).petrol_nox
    + dieselShare / 100 * (air yi).diesel_nox) * 1000

/-- Lines 465-471: the country-derived private-car PM default, built
exactly like `default_nox_car` from the PM limit columns. -/
def default_pm_car (air : ℤ → AirEmissionRow) (yi : ℤ)
    (petrolShare dieselShare : ℚ) : ℚ :=
  (petrolShare / 100 * (air yi).petrol_pm
    + dieselShare / 100 * (air yi).diesel_pm) * 1000

/-- One data column of `df_calc` after the first two loops of
`_perform_calculations`, as a function of the row index.  `v` is the
matching column of `df_var_nms` (`v 0` = "Number of vehicles", `v 1` =
trips per day, `v 7`-`v 11` = the five replacement shares, `v 12`-`v 16` =
the five replacement distances).
Row 0 (line 535): `total_trips`, the product of `df_var_nms` rows 0 and 1.
Rows 1-5 (lines 541-546, loop `i in range(7, 12)`): the appended value is
`df_calc.iloc[0] * (df_var_nms.iloc[i] / 100)`; the row appended for loop
index `i` sits at position `i - 6`, so row `n + 1` uses `v (n + 7)`.
Rows 6-10 (lines 550-555, loop `i in range(0, 5)`): the appended value is
`df_calc.iloc[i + 1] * df_var_nms.iloc[i + 12] * (-1)`, at position
`i + 6`; so row `n + 1` reads back `df_calc` row `n - 4` and `v (n + 7)`. -/
def df_calc (v : ℕ → ℚ) : ℕ → ℚ
  | 0 => v 0 * v 1
  | n + 1 =>
    if n + 1 ≤ 5 then df_calc v 0 * (v (n + 7) / 100)
    else if n + 1 ≤ 10 then df_calc v (n - 4) * v (n + 7) * (-1)
    else 0
termination_by n => n
decreasing_by all_goals omega

/-- Lines 637-664: `total_km_travelled` (row 18 of `df_calc`), the sum over
the five replaced-trip rows (`df_calc.iloc[1:6]`) of their product with the
replacement-distance rows (`df_var_nms.iloc[12:17]`). -/
def total_km_travelled (v : ℕ → ℚ) : ℚ :=
  ∑ i ∈ Finset.range 5, df_calc v (1 + i) * v (12 + i)

/-- Per-category inputs of the shared-service (NMS) emission steps of
`_perform_calculations`: `total_km` is the category's entry of
`total_km_travelled` (`df_calc` row 18), `ttwFactorIce` its entry of
`df_var_nms` row 2 (ICE TTW CO2 g/km), `efficiency` its entry of row 5
(EV efficiency kWh/km), `generalElectricityCo2` the effective general
row 0 (`df_var_gen.iloc[0, 1]`), and `wttMultiplier` the value computed at
lines 718-719 from the effective general row 1. -/
structure NmsEmissionInputs where
  total_km : ℚ
  ttwFactorIce : ℚ
  efficiency : ℚ
  generalElectricityCo2 : ℚ
  wttMultiplier : ℚ

/-- Lines 669-673: `ev_emission_factor` (row 19 of `df_calc`), the product
of the effective general electricity CO2 intensity and the category's EV
efficiency. -/
def ev_emission_factor (x : NmsEmissionInputs) : ℚ :=
  x.generalElectricityCo2 * x.efficiency

/-- Lines 681-705: `ttw_ice_co2` (row 20 of `df_calc`, labelled `ttw_co2`),
`total_km_travelled * df_var_nms.iloc[2] / 1000`. -/
def ttw_ice_co2 (x : NmsEmissionInputs) : ℚ :=
  x.total_km * x.ttwFactorIce / 1000

/-- Lines 734-750: `wtt_ev_co2`, the product of `df_calc` rows 18
(`total_km_travelled`) and 19 (`ev_emission_factor`) divided by 1000. -/
def wtt_ev_co2 (x : NmsEmissionInputs) : ℚ :=
  x.total_km * ev_emission_factor x / 1000

/-- Line 722: `wtt_ice_co2 = ttw_ice_co2 * wtt_multiplier_val`. -/
def wtt_ice_co2 (x : NmsEmissionInputs) : ℚ :=
  ttw_ice_co2 x * x.wttMultiplier

/-- Line 786: `wtt_co2 = wtt_ev_co2.where(wtt_ev_co2.ne(0.0)).fillna(wtt_ice_co2)`:
the EV value where it is non-zero, otherwise the ICE value. -/
def wtt_co2 (x : NmsEmissionInputs) : ℚ :=
  if wtt_ev_co2 x ≠ 0 then wtt_ev_co2 x else wtt_ice_co2 x

/-- Line 863: `avg_co2_TTW_nms = ttw_ice_co2` — the tank-to-wheel figure
carried into `df_results` for the shared services is the ICE value,
unconditionally. -/
def avg_co2_TTW_nms (x : NmsEmissionInputs) : ℚ := ttw_ice_co2 x

/-- Line 864: `avg_co2_WTT_nms = wtt_co2`. -/
def avg_co2_WTT_nms (x : NmsEmissionInputs) : ℚ := wtt_co2 x

/-- Lines 603-604 and 718-719: the well-to-tank multiplier
`(1 / (1 - wtt_factor / 100)) - 1`, computed with plain Python float
division, which raises `ZeroDivisionError` when the denominator is zero.
Embedded as a fallible computation. -/
def wtt_multiplier (wttFraction : ℚ) : Except String ℚ :=
  if 1 - wttFraction / 100 = 0 then Except.error "ZeroDivisionError"
  else Except.ok (1 / (1 - wttFraction / 100) - 1)

/-- Per-category result block built by `_format_results` (lines 1073-1080). -/
structure PerModeResult where
  ttw : ℚ
  wtt : ℚ
  lca : ℚ
  total : ℚ
  nox : ℚ
  pm : ℚ

/-- One CO2 totals block of the response
(`Co2CategoryTotals` in `schemas.py`). -/
structure Co2CategoryTotals where
  kgPerDay : ℚ
  tonPerYear : ℚ
  tonPerYearPer1000 : ℚ

/-- One air-quality totals block of the response
(`AirQualityTotals` in `schemas.py`). -/
structure AirQualityTotals where
  gPerDay : ℚ
  kgPerYear : ℚ
  kgPerYearPer1000 : ℚ

/-- The `totals` object of the response (lines 1111-1148): four CO2 blocks
and the NOx/PM air-quality blocks. -/
structure CalculationTotals where
  co2_total : Co2CategoryTotals
  tankToWheel : Co2CategoryTotals
  wellToTank : Co2CategoryTotals
  lifeCycle : Co2CategoryTotals
  airQuality_nox : AirQualityTotals
  airQuality_pm : AirQualityTotals

/-- Lines 1091-1100: a CO2 totals block from its kg/day figure:
`ton_per_year = kg_per_day / 1000 * 365.25` and
`ton_per_year_per_1000 = ton_per_year / inhabitants * 1000`. -/
def co2_block (kgPerDay inhabitants : ℚ) : Co2CategoryTotals :=
  { kgPerDay := kgPerDay
    tonPerYear := kgPerDay / 1000 * 365.25
    tonPerYearPer1000 := kgPerDay / 1000 * 365.25 / inhabitants * 1000 }

/-- Lines 1103-1109: an air-quality totals block from its g/day figure:
`kg_per_year = g_per_day / 1000 * 365.25` and
`kg_per_year_per_1000 = kg_per_year / inhabitants * 1000`. -/
def air_block (gPerDay inhabitants : ℚ) : AirQualityTotals :=
  { gPerDay := gPerDay
    kgPerYear := gPerDay / 1000 * 365.25
    kgPerYearPer1000 := gPerDay / 1000 * 365.25 / inhabitants * 1000 }

/-- The totals part of `_format_results` (lines 1083-1148): each per-day
figure is the sum of the per-category figures over the five user-facing
categories, and each block applies the fixed conversion chain. -/
def format_totals (perMode : List PerModeResult) (inhabitants : ℚ) :
    CalculationTotals :=
  { co2_total := co2_block ((perMode.map (fun r => r.total)).sum) inhabitants
    tankToWheel := co2_block ((perMode.map (fun r => r.ttw)).sum) inhabitants
    wellToTank := co2_block ((perMode.map (fun r => r.wtt)).sum) inhabitants
    lifeCycle := co2_block ((perMode.map (fun r => r.lca)).sum) inhabitants
    airQuality_nox := air_block ((perMode.map (fun r => r.nox)).sum) inhabitants
    airQuality_pm := air_block ((perMode.map (fun r => r.pm)).sum) inhabitants }

/-- The round-trip property claimed for a CO2 totals block. -/
def Co2RoundTrip (b : Co2CategoryTotals) (inhabitants : ℚ) : Prop :=
  b.tonPerYear = b.kgPerDay / 1000 * 365.25
    ∧ b.tonPerYearPer1000 = b.tonPerYear / inhabitants * 1000

/-- The round-trip property claimed for an air-quality totals block. -/
def AirRoundTrip (b : AirQualityTotals) (inhabitants : ℚ) : Prop :=
  b.kgPerYear = b.gPerDay / 1000 * 365.25
    ∧ b.kgPerYearPer1000 = b.kgPerYear / inhabitants * 1000

/-- The `fuelDistribution` object returned by `DataLoader.get_country_data`
(`data_loader.py` lines 360-367). -/
structure FuelDistribution where
  petrol : ℚ
  diesel : ℚ
  ev : ℚ
  other : ℚ

/-- `DataLoader.get_country_data`, fuel-distribution part
(`data_loader.py` lines 329-367): the source fractions `perc_petrol`,
`perc_diesel`, `perc_ev` are returned multiplied by 100 unclamped, while
the residual `other` share is `max(0.0, 1 - petrol - diesel - ev) * 100`
(lines 349-350 clamp the raw residual at zero before scaling). -/
def get_country_fuel_distribution (perc_petrol perc_diesel perc_ev : ℚ) :
    FuelDistribution :=
  let perc_other_raw := 1 - perc_petrol - perc_diesel - perc_ev
  let perc_other := max 0 perc_other_raw
  { petrol := perc_petrol * 100
    diesel := perc_diesel * 100
    ev := perc_ev * 100
    other := perc_other * 100 }

/-- C6: for every shared-service category column `v` and traditional mode
`m` (0 = private_car, …, 4 = walking): `total_trips = vehicleCount ×
tripsPerDay` (`df_calc` row 0), `replaced_trips m = total_trips ×
replace_share m / 100` (row `1 + m`, share = `df_var_nms` row `7 + m`),
`decreased_distance m = −(replaced_trips m × avg_distance m)` (row `6 + m`,
distance = `df_var_nms` row `12 + m`), and `total_km_travelled` is the sum
over the five modes of `replaced_trips × avg_distance`. -/
theorem trip_distance_derivation (v : ℕ → ℚ) (m : Fin 5) :
    df_calc v 0 = v 0 * v 1
    ∧ df_calc v (1 + (m : ℕ)) = df_calc v 0 * (v (7 + (m : ℕ)) / 100)
    ∧ df_calc v (6 + (m : ℕ)) = -(df_calc v (1 + (m : ℕ)) * v (12 + (m : ℕ)))
    ∧ total_km_travelled v
      = ∑ i ∈ Finset.range 5, df_calc v (1 + i) * v (12 + i) := by
  refine ⟨by simp [df_calc], ?_, ?_, rfl⟩ <;> fin_cases m <;>
    simp [df_calc] <;> ring

/-- C7: the private-car TTW CO2 default is the country's base new-car CO2
value looked up at `yearIndex = maxYear − round(currentYear − averageAge)`
(with `currentYear` hard-coded to 2024 at line 47), times 1.4 when the
implied registration year is ≤ 2020 and times 1.14 otherwise; the NOx and
PM defaults are `(petrolShare/100 × petrolLimit + dieselShare/100 ×
dieselLimit) × 1000` at the same year index, with no EV term (the
definitions take no EV share). -/
theorem private_car_country_defaults (carCo2 : ℤ → ℚ)
    (air : ℤ → AirEmissionRow) (maxYear : ℤ)
    (averageAge petrolShare dieselShare : ℚ) :
    default_co2_car carCo2 maxYear (car_year averageAge)
      = (if car_year averageAge ≤ 2020
         then carCo2 (maxYear - pyRound (current_year - averageAge)) * 1.4
         else carCo2 (maxYear - pyRound (current_year - averageAge)) * 1.14)
    ∧ default_nox_car air (year_index maxYear (car_year averageAge))
        petrolShare dieselShare
      = (petrolShare / 100
           * (air (maxYear - pyRound (current_year - averageAge))).petrol_nox
         + dieselShare / 100
           * (air (maxYear - pyRound (current_year - averageAge))).diesel_nox)
        * 1000
    ∧ default_pm_car air (year_index maxYear (car_year averageAge))
        petrolShare dieselShare
      = (petrolShare / 100
           * (air (maxYear - pyRound (current_year - averageAge))).petrol_pm
         + dieselShare / 100
           * (air (maxYear - pyRound (current_year - averageAge))).diesel_pm)
        * 1000 := by
  exact ⟨rfl, rfl, rfl⟩

/-- C8: in every populated totals block of the formatted result,
`tonPerYear = kgPerDay / 1000 × 365.25` and `tonPerYearPer1000 =
tonPerYear / inhabitants × 1000` hold exactly, and the air-quality blocks
satisfy `kgPerYear = gPerDay / 1000 × 365.25` and `kgPerYearPer1000 =
kgPerYear / inhabitants × 1000`. -/
theorem unit_conversion_round_trip (perMode : List PerModeResult)
    (inhabitants : ℚ) :
    Co2RoundTrip (format_totals perMode inhabitants).co2_total inhabitants
    ∧ Co2RoundTrip (format_totals perMode inhabitants).tankToWheel inhabitants
    ∧ Co2RoundTrip (format_totals perMode inhabitants).wellToTank inhabitants
    ∧ Co2RoundTrip (format_totals perMode inhabitants).lifeCycle inhabitants
    ∧ AirRoundTrip (format_totals perMode inhabitants).airQuality_nox inhabitants
    ∧ AirRoundTrip (format_totals perMode inhabitants).airQuality_pm inhabitants := by
  exact ⟨⟨rfl, rfl⟩, ⟨rfl, rfl⟩, ⟨rfl, rfl⟩, ⟨rfl, rfl⟩, ⟨rfl, rfl⟩, ⟨rfl, rfl⟩⟩

/-- C9: the WTT multiplier computation raises `ZeroDivisionError` exactly
when the effective general well-to-tank fraction equals 100, and for every
other fraction it succeeds with `1 / (1 − w/100) − 1`, so the error branch
is unreachable whenever the fraction differs from 100. -/
theorem wtt_multiplier_zero_division (w : ℚ) :
    wtt_multiplier w = (if w = 100 then Except.error "ZeroDivisionError"
                        else Except.ok (1 / (1 - w / 100) - 1))
    ∧ ((∃ q, wtt_multiplier w = Except.ok q) ↔ w ≠ 100) := by
  have h : (1 - w / 100 = 0) = (w = 100) := by
    apply propext
    constructor <;> intro hh <;> linarith
  constructor
  · simp only [wtt_multiplier, h]
  · simp only [wtt_multiplier, h]
    by_cases hw : w = 100 <;> simp [hw]

/-- C10: `get_country_data` returns the petrol, diesel and EV shares as the
raw source fractions times 100 (unclamped), while the residual `other`
share is `max 0 (1 − petrol − diesel − ev) × 100`, hence never negative,
even when the source fractions sum to more than 1. -/
theorem get_country_data_fuel_distribution (p d e : ℚ) :
    (get_country_fuel_distribution p d e).petrol = p * 100
    ∧ (get_country_fuel_distribution p d e).diesel = d * 100
    ∧ (get_country_fuel_distribution p d e).ev = e * 100
    ∧ (get_country_fuel_distribution p d e).other = max 0 (1 - p - d - e) * 100
    ∧ 0 ≤ (get_country_fuel_distribution p d e).other := by
  refine ⟨rfl, rfl, rfl, rfl, ?_⟩
  simp only [get_country_fuel_distribution]
  positivity

/-- C1 counterexample: in the shared-service category
`[{userInput 1, default 5}, {userInput 0, default 7}]` the second row has
`userInput = 0` yet its effective value is 0, not its `defaultValue` 7 —
the per-row zero-fallback law fails for shared-service tables. -/
theorem nms_zero_row_keeps_zero_cex :
    prepare_nms_effective [⟨"a", 1, 5⟩, ⟨"b", 0, 7⟩] = [1, 0]
    ∧ ((0 : ℚ) ≠ 7) := by
  constructor
  · norm_num [prepare_nms_effective]
  · norm_num

/-- C1 (amended): the per-row zero-fallback law holds for the general table
(with the row's original `defaultValue` — see C2) and for the
traditional-mode columns as produced by `_prepare_trad_variables`; but the
`private_car` column's rows 0-2 are subsequently overwritten with the
country-derived values regardless of `userInput`, and a shared-service
category resolves all-or-nothing: every row takes its `defaultValue` when
the category's `userInput` column sums to zero and its raw `userInput`
otherwise, so a shared-service row with `userInput = 0` need not pick up
its default. -/
theorem zero_fallback_per_row_amended
    (g0 g1 g2 g3 g4 g5 t0 t1 t2 t3 t4 : VariableRow)
    (nmsRows : List VariableRow) (elec age petrol diesel ev co2 nox pm : ℚ) :
    prepare_general_variables [g0, g1, g2, g3, g4, g5] elec age petrol diesel ev
      = [resolve_user_input g0, resolve_user_input g1, resolve_user_input g2,
         resolve_user_input g3, resolve_user_input g4, resolve_user_input g5]
    ∧ prepare_trad_effective [t0, t1, t2, t3, t4]
      = [resolve_user_input t0, resolve_user_input t1, resolve_user_input t2,
         resolve_user_input t3, resolve_user_input t4]
    ∧ trad_private_car_downstream [t0, t1, t2, t3, t4] co2 nox pm
      = [co2, nox, pm, resolve_user_input t3, resolve_user_input t4]
    ∧ prepare_nms_effective nmsRows
      = (if (nmsRows.map fun r => r.userInput).sum = 0
         then nmsRows.map fun r => r.defaultValue
         else nmsRows.map fun r => r.userInput) := by
  exact ⟨rfl, rfl, rfl, rfl⟩

/-- C2: evaluating the code at a failing input.  All general rows carry
`userInput = 0`, the country electricity intensity is 300, yet the
effective general row 0 is the generic default 96 (the country-default
writes of lines 420-424 land after the resolution of line 415, in a column
that line 426 drops); and a private-car TTW row with `userInput = 50` ends
up at the country-derived 170 because lines 474-477 overwrite the resolved
column unconditionally — the user's non-zero value does not win. -/
theorem country_defaults_not_applied_bug :
    prepare_general_variables
      [⟨"electricity co2", 0, 96⟩, ⟨"wtt fraction", 0, 30⟩,
       ⟨"car age", 0, 10⟩, ⟨"petrol share", 0, 40⟩,
       ⟨"diesel share", 0, 50⟩, ⟨"ev share", 0, 5⟩]
      300 12 42 49 8
      = [96, 30, 10, 40, 50, 5]
    ∧ trad_private_car_downstream
        [⟨"ttw co2", 50, 118.6⟩, ⟨"nox", 0, 69⟩, ⟨"pm", 0, 4.5⟩,
         ⟨"rail eff", 0, 0.09⟩, ⟨"lca", 0, 55⟩]
        170 80 5000
      = [170, 80, 5000, 0.09, 55]
    ∧ ((96 : ℚ) ≠ 300) ∧ ((170 : ℚ) ≠ 50) := by
  refine ⟨?_, ?_, by norm_num, by norm_num⟩
  · norm_num [prepare_general_variables, update_general_defaults,
      resolve_user_input]
  · norm_num [trad_private_car_downstream, update_defaults_from_dashboard,
      prepare_trad_effective, resolve_user_input]

/-- C3 counterexample: for an EV category with `total_km = 1000`,
`efficiency = 0.17`, `generalElectricityCo2 = 96` and ICE TTW factor 0, the
EV figure `ttw_ev = 16.32` is non-zero, yet the tank-to-wheel value carried
downstream is `avg_co2_TTW_nms = 0` (the ICE value), not `ttw_ev`. -/
theorem ttw_nms_ignores_ev_factor_cex :
    wtt_ev_co2 ⟨1000, 0, 0.17, 96, 0.25⟩ = 16.32
    ∧ ((16.32 : ℚ) ≠ 0)
    ∧ avg_co2_TTW_nms ⟨1000, 0, 0.17, 96, 0.25⟩ = 0
    ∧ ((0 : ℚ) ≠ 16.32) := by
  refine ⟨?_, by norm_num, ?_, by norm_num⟩ <;>
    norm_num [wtt_ev_co2, ev_emission_factor, avg_co2_TTW_nms, ttw_ice_co2]

/-- C3 (amended): the tank-to-wheel figure used downstream is
`avg_co2_TTW_nms = ttw_ice = total_km × ttwFactorIce / 1000`
unconditionally; the where-non-zero selection between the EV figure
`ttw_ev = total_km × (generalElectricityCo2 × efficiency) / 1000` and the
ICE-derived figure is applied to the well-to-tank value `avg_co2_WTT_nms`
(ICE branch additionally multiplied by the WTT multiplier). -/
theorem ttw_nms_is_ice_and_wtt_selects (x : NmsEmissionInputs) :
    avg_co2_TTW_nms x = x.total_km * x.ttwFactorIce / 1000
    ∧ avg_co2_WTT_nms x
      = (if x.total_km * (x.generalElectricityCo2 * x.efficiency) / 1000 ≠ 0
         then x.total_km * (x.generalElectricityCo2 * x.efficiency) / 1000
         else x.total_km * x.ttwFactorIce / 1000 * x.wttMultiplier) := by
  exact ⟨rfl, rfl⟩

/-- C4 counterexample: in the traditional-mode category
`[{userInput 5, default 3}, {userInput 0, default 7}]` the first row's
non-zero input does not stop the second row from falling back to its
default 7 (the claim requires it to stay 0); and in the shared-service
category `[{userInput 5, default 3}, {userInput -5, default 7}]` the inputs
sum to zero, so every row falls back to its default although two rows have
non-zero `userInput`. -/
theorem trad_per_row_fallback_cex :
    prepare_trad_effective [⟨"a", 5, 3⟩, ⟨"b", 0, 7⟩] = [5, 7]
    ∧ ((7 : ℚ) ≠ 0)
    ∧ prepare_nms_effective [⟨"c", 5, 3⟩, ⟨"d", -5, 7⟩] = [3, 7]
    ∧ ((5 : ℚ) ≠ 0) := by
  refine ⟨?_, by norm_num, ?_, by norm_num⟩ <;>
    norm_num [prepare_trad_effective, prepare_nms_effective, resolve_user_input]

/-- C4 (amended): the all-or-nothing fallback applies to shared-service
categories only, and is keyed on the sum of the category's `userInput`
column: if every supplied row has `userInput = 0` (more generally, whenever
the inputs sum to zero) every row's effective value is its `defaultValue`,
and whenever the inputs sum to a non-zero value every row keeps its raw
`userInput`; traditional-mode categories instead resolve per row. -/
theorem all_or_nothing_nms_only (nmsRows tradRows : List VariableRow) :
    ((∀ r ∈ nmsRows, r.userInput = 0) →
       prepare_nms_effective nmsRows = nmsRows.map fun r => r.defaultValue)
    ∧ ((nmsRows.map fun r => r.userInput).sum ≠ 0 →
       prepare_nms_effective nmsRows = nmsRows.map fun r => r.userInput)
    ∧ prepare_trad_effective tradRows
      = tradRows.map fun r => resolve_user_input r := by
  refine ⟨?_, ?_, rfl⟩
  · intro h
    have hs : (nmsRows.map fun r => r.userInput).sum = 0 := by
      apply List.sum_eq_zero
      intro x hx
      obtain ⟨r, hr, rfl⟩ := List.mem_map.mp hx
      exact h r hr
    simp [prepare_nms_effective, hs]
  · intro h
    simp [prepare_nms_effective, h]

/-- Witness for the amended C4: both implications fire at concrete
categories. -/
theorem all_or_nothing_nms_only_witness :
    prepare_nms_effective [⟨"a", 0, 3⟩] = [3]
    ∧ prepare_nms_effective [⟨"b", 2, 9⟩] = [2] := by
  constructor
  · exact (all_or_nothing_nms_only [⟨"a", 0, 3⟩] []).1 (by simp)
  · exact (all_or_nothing_nms_only [⟨"b", 2, 9⟩] []).2.1 (by norm_num)

/-- C5 counterexample: with `pt_rail` (a required mode) absent from the
traditional-modes table and the other four categories present, none of the
pipeline's shape checks fires: the calculation proceeds with no error and
silently reads the rail-efficiency value from the `cycling` column, which
occupies position 3. -/
theorem missing_pt_rail_no_error_cex :
    trad_pipeline_check ["private_car", "pt_road", "cycling", "walking"]
      = Except.ok "cycling"
    ∧ ("pt_rail" ∈ TRAD_TYPES)
    ∧ ("pt_rail" ∉ ["private_car", "pt_road", "cycling", "walking"]) := by
  exact ⟨rfl, by decide, by decide⟩

/-- C5 (amended): the traditional-modes pipeline raises a `ValueError`
exactly when fewer than three of the five mode categories are present
(zero categories trip `_prepare_trad_variables`, one or two trip the shape
check of `_perform_calculations`); with exactly one required mode absent
(four categories present) the calculation does not fail and computes
silently, the rail-efficiency factor coming from whatever column sits at
position 3. -/
theorem trad_check_ok_iff_three_modes (tradKeys : List String) :
    (∃ m, trad_pipeline_check tradKeys = Except.ok m)
      ↔ 3 ≤ (presentModes tradKeys).length := by
  simp only [trad_pipeline_check]
  split_ifs with h1 h2 <;> simp <;> omega

end XIPE
